import Mathlib

/-
Verification development for the MCP Studio connection-management and
transport subsystem (`McpClientManager` in mcp_client.rs and `SseWorker`
in sse_transport.rs).

The Rust code is embedded shallowly:
- the manager's shared state (connections map, tools cache) becomes an
  explicit `ManagerState` record threaded through pure step functions;
- async side effects that the properties observe (published disconnect
  notifications, spawned heartbeat tasks, POST requests) are returned as
  explicit event lists;
- external outcomes (transport initialization, ping results, tool-call
  outcomes, SSE stream items) are supplied as parameters, since they come
  from the network;
- Rust `String` operations (`trim`, `starts_with`, `contains`) and the
  relevant fragment of `reqwest::Url::parse` are modelled by structurally
  recursive functions over `List Char`, so everything evaluates inside
  the kernel.
-/

namespace McpStudio

/-! ## String helpers (models of Rust str operations over List Char) -/

/-- Model of ASCII whitespace as used by the inputs in scope (Rust
`char::is_whitespace` restricted to the ASCII range). -/
def isWhitespaceCh (c : Char) : Bool :=
  c = ' ' || c = '\t' || c = '\n' || c = '\r'

/-- Drop whitespace from both ends of a character list. -/
def trimChars (s : List Char) : List Char :=
  ((s.dropWhile isWhitespaceCh).reverse.dropWhile isWhitespaceCh).reverse

/-- Model of Rust `str::trim`. -/
def strTrim (s : String) : String :=
  String.mk (trimChars s.toList)

/-- Model of Rust `str::starts_with`. -/
def strStartsWith (s p : String) : Bool :=
  p.toList.isPrefixOf s.toList

/-- Helper for substring search: does `n` occur as a contiguous run in the
second list? -/
def containsAux (n : List Char) : List Char → Bool
  | [] => n.isEmpty
  | c :: rest => n.isPrefixOf (c :: rest) || containsAux n rest

/-- Model of Rust `str::contains`. -/
def strContainsSub (hay needle : String) : Bool :=
  containsAux needle.toList hay.toList

/-- Numeric value of an ASCII digit. -/
def digitVal (c : Char) : Option Nat :=
  if c = '0' then some 0
  else if c = '1' then some 1
  else if c = '2' then some 2
  else if c = '3' then some 3
  else if c = '4' then some 4
  else if c = '5' then some 5
  else if c = '6' then some 6
  else if c = '7' then some 7
  else if c = '8' then some 8
  else if c = '9' then some 9
  else none

/-- Accumulating decimal parser over digit characters. -/
def parseNatAux (acc : Nat) : List Char → Option Nat
  | [] => some acc
  | c :: rest =>
    match digitVal c with
    | some d => parseNatAux (acc * 10 + d) rest
    | none => none

/-- Model of Rust `str::parse::<u64>` on a nonempty all-digit string
(good enough for port strings; overflow is irrelevant here). -/
def parseNatDigits (l : List Char) : Option Nat :=
  if l.isEmpty then none else parseNatAux 0 l

/-- Digit character for a value below ten. -/
def digitChar : Nat → Char
  | 0 => '0'
  | 1 => '1'
  | 2 => '2'
  | 3 => '3'
  | 4 => '4'
  | 5 => '5'
  | 6 => '6'
  | 7 => '7'
  | 8 => '8'
  | 9 => '9'
  | _ => '?'

/-- Fuelled decimal printer (fuel bounds the number of digits). -/
def natReprAux : Nat → Nat → List Char
  | 0, _ => []
  | fuel + 1, n =>
    if n < 10 then [digitChar n]
    else natReprAux fuel (n / 10) ++ [digitChar (n % 10)]

/-- Model of Rust integer formatting (`format!` on a u16 port). -/
def natRepr (n : Nat) : String :=
  String.mk (natReprAux (n + 1) n)

/-! ## URL model (fragment of reqwest::Url used by SseWorker::new) -/

/-- Parsed http(s) URL parts, as exposed by `reqwest::Url` accessors
`scheme()`, `host_str()` and `port()` in sse_transport.rs. -/
structure ParsedUrl where
  scheme : String
  host : String
  port : Option Nat
deriving DecidableEq

/-- Modelled fragment of `reqwest::Url::parse` for `scheme://host[:port]/...`
URLs: splits off the scheme, then the authority up to the first slash, then
host and optional numeric port. Anything else is a parse failure. -/
def parseUrl (url : String) : Option ParsedUrl :=
  let chars := url.toList
  let schemeRest : Option (String × List Char) :=
    if strStartsWith url "http://" then some ("http", chars.drop 7)
    else if strStartsWith url "https://" then some ("https", chars.drop 8)
    else none
  match schemeRest with
  | none => none
  | some (scheme, rest) =>
    let authority := rest.takeWhile (fun c => c ≠ '/')
    if authority.isEmpty then none
    else
      let host := authority.takeWhile (fun c => c ≠ ':')
      let portPart := authority.dropWhile (fun c => c ≠ ':')
      match portPart with
      | [] => some { scheme := scheme, host := String.mk host, port := none }
      | _ :: digits =>
        match parseNatDigits digits with
        | some p => some { scheme := scheme, host := String.mk host, port := some p }
        | none => none

/-- Base-URL extraction in `SseWorker::new` (sse_transport.rs:55-60):
`format!` of scheme and host plus optional `:port`; on parse failure the
raw URL string is used unchanged. -/
def extractBaseUrl (url : String) : String :=
  match parseUrl url with
  | some p =>
    p.scheme ++ "://" ++ p.host ++
      (match p.port with
       | some n => ":" ++ natRepr n
       | none => "")
  | none => url

/-- Endpoint resolution in Phase 1 of `SseWorker::run`
(sse_transport.rs:138-146): trim the event payload; absolute http(s)
payloads are used as-is, anything else is concatenated onto the base URL. -/
def resolveEndpoint (base_url data : String) : String :=
  let endpoint := strTrim data
  if strStartsWith endpoint "http://" || strStartsWith endpoint "https://" then endpoint
  else base_url ++ endpoint

/-! ## Manager data model (mcp_client.rs) -/

/-- Tool information from the MCP server (`McpToolInfo`, mcp_client.rs:85-91). -/
structure McpToolInfo where
  name : String
  description : Option String
  input_schema : Option String
  output_schema : Option String
deriving DecidableEq

/-- Application error type as used by the manager (`AppError::Domain` and
`AppError::Io`; the Io constructor is named IoError here). -/
inductive AppError where
  | Domain (msg : String)
  | IoError (msg : String)
deriving DecidableEq

/-- Shared state of `McpClientManager` (mcp_client.rs:107-113): the
connections map and the in-memory tools cache, both keyed by server id.
A live connection is represented by its registry key; the transport handle
and heartbeat cancellation token it owns are not observable by the
properties in scope beyond membership. -/
structure ManagerState where
  connections : List String
  tools_cache : List (String × List McpToolInfo)
deriving DecidableEq

/-- Disconnect notification payload published on the
`mcp:connection_lost` channel (mcp_client.rs:553-559). -/
structure DisconnectNotification where
  server_id : String
  status : String
  error : String
  reason : String
deriving DecidableEq

/-- Smart constructor matching the `serde_json::json!` literal in
`handle_transport_disconnect`. -/
def mkDisconnectNotification (server_id reason : String) : DisconnectNotification :=
  { server_id := server_id
    status := "disconnected"
    error := "Transport closed: " ++ reason
    reason := reason }

/-! ## Manager operations -/

/-- Transport kinds selected by `connect` (mcp_client.rs:165-201). -/
inductive TransportKind where
  | streamableHttp
  | sse
deriving DecidableEq

/-- Case-sensitive transport dispatch on the `server_type` tag string,
mirroring the match in `McpClientManager::connect` (mcp_client.rs:165-201). -/
def dispatchTransport (server_type : String) : Option TransportKind :=
  if server_type = "streamable_http" then some TransportKind.streamableHttp
  else if server_type = "sse" then some TransportKind.sse
  else none

/-- Observable side effects of a successful `connect`. -/
inductive ConnectEffect where
  | insertSession (id : String)
  | spawnHeartbeat (id : String)
deriving DecidableEq

/-- `McpClientManager::connect` (mcp_client.rs:135-227). The outcome of
transport construction plus `client_info.serve(...)` is supplied as the
`transportInit` parameter since it depends on the network. Returns the new
state, the observable effects, and the result handed to the caller. -/
def connect (st : ManagerState) (server_id _url server_type : String)
    (transportInit : Except String Unit) :
    ManagerState × List ConnectEffect × Except AppError Unit :=
  if st.connections.contains server_id then
    (st, [], Except.error (AppError.Domain "Already connected"))
  else
    match dispatchTransport server_type with
    | none =>
      (st, [], Except.error (AppError.Domain ("Unsupported server type: " ++ server_type)))
    | some _ =>
      match transportInit with
      | Except.error e =>
        (st, [], Except.error (AppError.IoError ("Failed to initialize MCP connection: " ++ e)))
      | Except.ok _ =>
        ({ connections := server_id :: st.connections, tools_cache := st.tools_cache },
         [ConnectEffect.insertSession server_id, ConnectEffect.spawnHeartbeat server_id],
         Except.ok ())

/-- `McpClientManager::disconnect` (mcp_client.rs:322-338): remove the
session (cancelling heartbeat and client if present), then unconditionally
remove the tools-cache entry. Publishes no notification event. -/
def disconnect (st : ManagerState) (server_id : String) :
    ManagerState × List DisconnectNotification :=
  ({ connections := st.connections.filter (fun c => c ≠ server_id)
     tools_cache := st.tools_cache.filter (fun e => e.1 ≠ server_id) },
   [])

/-- `McpClientManager::disconnect_all` (mcp_client.rs:523-531): drain the
connections map, cancelling each heartbeat and client. The tools cache is
not touched and no notification is published. -/
def disconnect_all (st : ManagerState) : ManagerState × List DisconnectNotification :=
  ({ connections := [], tools_cache := st.tools_cache }, [])

/-- `McpClientManager::handle_transport_disconnect` (mcp_client.rs:533-560):
remove the session; if one was present, cancel its heartbeat and client and
remove its tools-cache entry (the cache removal sits inside the
`if let Some` arm). The notification is published unconditionally at the
end, whether or not a connection was found. -/
def handle_transport_disconnect (st : ManagerState) (server_id reason : String) :
    ManagerState × List DisconnectNotification :=
  let found := st.connections.contains server_id
  let conns := st.connections.filter (fun c => c ≠ server_id)
  let cache :=
    if found then st.tools_cache.filter (fun e => e.1 ≠ server_id)
    else st.tools_cache
  ({ connections := conns, tools_cache := cache },
   [mkDisconnectNotification server_id reason])

/-- `McpClientManager::is_connected` (mcp_client.rs:341-344). -/
def is_connected (st : ManagerState) (server_id : String) : Bool :=
  st.connections.contains server_id

/-! ## Heartbeat supervisor (mcp_client.rs:239-301) -/

/-- MAX_FAILURES constant in `run_heartbeat` (mcp_client.rs:242). -/
def MAX_FAILURES : Nat := 1

/-- Classification of an error as a transport-closed/reset condition
(mcp_client.rs:279-282): an Io error whose message contains
"Transport closed" or "Connection reset". -/
def isTransportClosedErr : AppError → Bool
  | AppError.IoError msg =>
    strContainsSub msg "Transport closed" || strContainsSub msg "Connection reset"
  | AppError.Domain _ => false

/-- Outcome of one heartbeat tick: keep looping with a counter value, or
exit the loop. -/
inductive HeartbeatOutcome where
  | ticking (consecutive_failures : Nat)
  | exited
deriving DecidableEq

/-- One tick of the `run_heartbeat` loop (mcp_client.rs:264-300), given the
current consecutive-failure counter and the result of `ping_server`.
Success resets the counter; failure increments it and tears down via
`handle_transport_disconnect` with reason "heartbeat_failed" when the
counter reaches MAX_FAILURES or the error is a transport-closed condition. -/
def run_heartbeat_tick (st : ManagerState) (server_id : String)
    (consecutive_failures : Nat) (ping : Except AppError Unit) :
    ManagerState × List DisconnectNotification × HeartbeatOutcome :=
  match ping with
  | Except.ok _ => (st, [], HeartbeatOutcome.ticking 0)
  | Except.error e =>
    let failures := consecutive_failures + 1
    if MAX_FAILURES ≤ failures || isTransportClosedErr e then
      let r := handle_transport_disconnect st server_id "heartbeat_failed"
      (r.1, r.2, HeartbeatOutcome.exited)
    else
      (st, [], HeartbeatOutcome.ticking failures)

/-! ## Tool calls (mcp_client.rs:410-506) -/

/-- Tool call result returned to the caller (`McpToolCallResult`,
domain/mcp.rs:281-287; the serde_json result value is modelled as an
opaque string). -/
structure McpToolCallResult where
  success : Bool
  raw_response : String
  result : Option String
  error : Option String
  duration_ms : Int
deriving DecidableEq

/-- Outcome of the timeout race around `conn.client.call_tool`
(mcp_client.rs:451-455): the inner call succeeded (with the server-side
is_error flag and serialized payloads), the inner call failed, or the
30-second timeout elapsed. -/
inductive ToolCallOutcome where
  | succeeded (is_error : Option Bool) (raw : String) (content : String)
  | rpcFailed (msg : String)
  | timedOut
deriving DecidableEq

/-- Timeout bound of the tool-call race, in seconds (mcp_client.rs:452). -/
def CALL_TOOL_TIMEOUT_SECS : Nat := 30

/-- `McpClientManager::call_tool` (mcp_client.rs:411-506). The manager
state is read-only here; all three race outcomes produce an Ok result
carrying the measured duration, and only a missing connection produces an
error. -/
def call_tool (st : ManagerState) (server_id : String) (outcome : ToolCallOutcome)
    (duration_ms : Int) : ManagerState × Except AppError McpToolCallResult :=
  if st.connections.contains server_id then
    match outcome with
    | ToolCallOutcome.succeeded is_error raw content =>
      (st, Except.ok
        { success := !(is_error.getD false)
          raw_response := raw
          result := some content
          error := none
          duration_ms := duration_ms })
    | ToolCallOutcome.rpcFailed msg =>
      (st, Except.ok
        { success := false
          raw_response := "\x7b\"error\": \"" ++ msg ++ "\"\x7d"
          result := none
          error := some msg
          duration_ms := duration_ms })
    | ToolCallOutcome.timedOut =>
      (st, Except.ok
        { success := false
          raw_response := "\x7b\"error\": \"Request timed out\"\x7d"
          result := none
          error := some "Request timed out after 30 seconds"
          duration_ms := duration_ms })
  else
    (st, Except.error (AppError.Domain "Not connected to server"))

/-! ## SSE transport worker (sse_transport.rs) -/

/-- Typed termination reason of a Worker run loop
(`rmcp::transport::worker::WorkerQuitReason`; the Fatal payload keeps only
the error message). -/
inductive WorkerQuitReason where
  | Cancelled
  | TransportClosed
  | Fatal (msg : String)
deriving DecidableEq

/-- State of an `SseWorker` during Phase 1 (sse_transport.rs:33-40 plus the
`post_url` mutex of the run loop): the base URL computed by
`SseWorker::new`, the current POST endpoint, and the one-shot disconnect
latch `disconnect_notified`. -/
structure SseWorkerState where
  base_url : String
  post_url : Option String
  disconnect_notified : Bool
deriving DecidableEq

/-- `SseWorker::notify_disconnect` (sse_transport.rs:72-82): swap the latch;
if it was already set, emit nothing, otherwise fire the disconnect callback
with the given reason (returned as the emitted-reasons list). -/
def SseWorkerState.notify_disconnect (w : SseWorkerState) (reason : String) :
    SseWorkerState × List String :=
  if w.disconnect_notified then (w, [])
  else ({ w with disconnect_notified := true }, [reason])

/-- One item observed by the Phase 1 select loop: a decoded SSE event, a
stream error, stream closure, or the cancellation signal winning the race. -/
inductive SseInput where
  | sseEvent (name data : String)
  | sseErr (msg : String)
  | sseClosed
  | cancelSignal
deriving DecidableEq

/-- Result of one Phase 1 iteration: keep waiting for the endpoint event,
proceed to Phase 2, or quit with a termination reason. -/
inductive Phase1Result where
  | waiting
  | proceedToStreaming
  | quit (r : WorkerQuitReason)
deriving DecidableEq

/-- One iteration of the Phase 1 loop of `SseWorker::run`
(sse_transport.rs:130-176): an `endpoint` event records the resolved POST
URL and exits the phase; any other event is ignored; a stream error or
closure notifies disconnect (through the latch) and quits Fatal;
cancellation quits Cancelled without notifying. -/
def phase1Step (w : SseWorkerState) (i : SseInput) :
    SseWorkerState × List String × Phase1Result :=
  match i with
  | SseInput.sseEvent name data =>
    if name = "endpoint" then
      ({ w with post_url := some (resolveEndpoint w.base_url data) }, [],
       Phase1Result.proceedToStreaming)
    else
      (w, [], Phase1Result.waiting)
  | SseInput.sseErr m =>
    let r := w.notify_disconnect "sse_stream_error_before_endpoint"
    (r.1, r.2, Phase1Result.quit (WorkerQuitReason.Fatal
      ("SSE error while waiting for endpoint: " ++ m)))
  | SseInput.sseClosed =>
    let r := w.notify_disconnect "sse_stream_closed_before_endpoint"
    (r.1, r.2, Phase1Result.quit (WorkerQuitReason.Fatal
      "SSE stream closed before receiving endpoint"))
  | SseInput.cancelSignal =>
    (w, [], Phase1Result.quit WorkerQuitReason.Cancelled)

/-- Run the Phase 1 loop over a finite list of observed items, accumulating
emitted disconnect reasons, until the phase ends or the items run out. -/
def phase1Run (w : SseWorkerState) : List SseInput →
    SseWorkerState × List String × Phase1Result
  | [] => (w, [], Phase1Result.waiting)
  | i :: rest =>
    let s := phase1Step w i
    match s.2.2 with
    | Phase1Result.waiting =>
      let r := phase1Run s.1 rest
      (r.1, s.2.1 ++ r.2.1, r.2.2)
    | other => (s.1, s.2.1, other)

/-- State of an `SseWorker` during Phase 2 (sse_transport.rs:181-291). The
POST URL is definitely present here; the run loop `expect`s it. -/
structure Phase2State where
  base_url : String
  post_url : String
  disconnect_notified : Bool
deriving DecidableEq

/-- One-shot latch on the Phase 2 state, same as
`SseWorker::notify_disconnect`. -/
def Phase2State.notify_disconnect (w : Phase2State) (reason : String) :
    Phase2State × List String :=
  if w.disconnect_notified then (w, [])
  else ({ w with disconnect_notified := true }, [reason])

/-- One item observed by the Phase 2 select loop: an outbound request from
the handler (its POST outcome supplied, since it depends on the network;
serialization of well-formed protocol messages is modelled as succeeding),
an inbound SSE item, or cancellation. -/
inductive Phase2Input where
  | fromHandler (postOk : Bool)
  | sseEvent (name data : String)
  | sseErr (msg : String)
  | sseClosed
  | cancelSignal
deriving DecidableEq

/-- Result of one Phase 2 iteration: stay in the Streaming loop or quit. -/
inductive Phase2Result where
  | streaming
  | quit (r : WorkerQuitReason)
deriving DecidableEq

/-- Observable output of Phase 2 iterations: disconnect reasons emitted,
messages delivered to the handler, POST target URLs attempted, and the
loop result. -/
structure Phase2Output (M : Type) where
  notices : List String
  delivered : List M
  posts : List String
  result : Phase2Result
deriving DecidableEq

/-- One iteration of the Phase 2 loop of `SseWorker::run`
(sse_transport.rs:181-291), parameterized by the two-stage inbound parser
(serde_json::from_str to a JSON document `J`, then serde_json::from_value
to the protocol message `M`). An outbound request POSTs to the current
`post_url`; on POST failure the worker notifies "post_send_error" and quits
Fatal. An inbound `endpoint` event replaces the POST URL with the trimmed
payload as-is (no resolution against the base URL in this arm). An inbound
`message` event is delivered when both parse stages succeed and is dropped
otherwise; unknown events are ignored. Stream closure notifies
"sse_stream_closed" and quits TransportClosed; a stream error notifies
"sse_stream_error" and quits Fatal; cancellation quits without notifying. -/
def phase2Step {J M : Type} (parseJson : String → Option J) (parseRpc : J → Option M)
    (w : Phase2State) (i : Phase2Input) : Phase2State × Phase2Output M :=
  match i with
  | Phase2Input.fromHandler postOk =>
    if postOk then
      (w, { notices := [], delivered := [], posts := [w.post_url],
            result := Phase2Result.streaming })
    else
      let r := w.notify_disconnect "post_send_error"
      (r.1, { notices := r.2, delivered := [], posts := [w.post_url],
              result := Phase2Result.quit (WorkerQuitReason.Fatal
                "POST request failed, terminating transport") })
  | Phase2Input.sseEvent name data =>
    if name = "endpoint" then
      ({ w with post_url := strTrim data },
       { notices := [], delivered := [], posts := [], result := Phase2Result.streaming })
    else if name = "message" then
      match parseJson data with
      | some j =>
        match parseRpc j with
        | some m =>
          (w, { notices := [], delivered := [m], posts := [],
                result := Phase2Result.streaming })
        | none =>
          (w, { notices := [], delivered := [], posts := [],
                result := Phase2Result.streaming })
      | none =>
        (w, { notices := [], delivered := [], posts := [],
              result := Phase2Result.streaming })
    else
      (w, { notices := [], delivered := [], posts := [],
            result := Phase2Result.streaming })
  | Phase2Input.sseErr m =>
    let r := w.notify_disconnect "sse_stream_error"
    (r.1, { notices := r.2, delivered := [], posts := [],
            result := Phase2Result.quit (WorkerQuitReason.Fatal
              ("SSE stream error: " ++ m)) })
  | Phase2Input.sseClosed =>
    let r := w.notify_disconnect "sse_stream_closed"
    (r.1, { notices := r.2, delivered := [], posts := [],
            result := Phase2Result.quit WorkerQuitReason.TransportClosed })
  | Phase2Input.cancelSignal =>
    (w, { notices := [], delivered := [], posts := [],
          result := Phase2Result.quit WorkerQuitReason.Cancelled })

/-- Run the Phase 2 loop over a finite list of observed items, accumulating
outputs, until the loop quits or the items run out. -/
def phase2Run {J M : Type} (parseJson : String → Option J) (parseRpc : J → Option M)
    (w : Phase2State) : List Phase2Input → Phase2State × Phase2Output M
  | [] => (w, { notices := [], delivered := [], posts := [], result := Phase2Result.streaming })
  | i :: rest =>
    let s := phase2Step parseJson parseRpc w i
    match s.2.result with
    | Phase2Result.streaming =>
      let r := phase2Run parseJson parseRpc s.1 rest
      (r.1, { notices := s.2.notices ++ r.2.notices
              delivered := s.2.delivered ++ r.2.delivered
              posts := s.2.posts ++ r.2.posts
              result := r.2.result })
    | Phase2Result.quit q =>
      (s.1, { notices := s.2.notices, delivered := s.2.delivered, posts := s.2.posts,
              result := Phase2Result.quit q })

/-- Result discriminator for connect outcomes. -/
def isOkResult : Except AppError Unit → Bool
  | Except.ok _ => true
  | Except.error _ => false

/-! ## Helper lemmas -/

/-- Filtering out the entries keyed by an id leaves no entry with that key. -/
theorem cache_filter_no_entry (l : List (String × List McpToolInfo)) (id : String) :
    (l.filter (fun e => e.1 ≠ id)).any (fun e => e.1 == id) = false := by
  induction l with
  | nil => rfl
  | cons h t ih =>
    by_cases hc : h.1 = id
    · simp [List.filter_cons, hc, ih]
    · simp [List.filter_cons, hc, ih]

/-- A run of non-endpoint events at the head of the Phase 1 input is skipped
without changing the worker state or emitting anything. -/
theorem phase1_skip_events (w : SseWorkerState) (rest : List SseInput) :
    ∀ pre : List SseInput,
      (∀ i ∈ pre, ∃ n d, i = SseInput.sseEvent n d ∧ n ≠ "endpoint") →
      phase1Run w (pre ++ rest) = phase1Run w rest := by
  intro pre
  induction pre with
  | nil => intro _; rfl
  | cons x t ih =>
    intro hpre
    have ht : ∀ j ∈ t, ∃ n d, j = SseInput.sseEvent n d ∧ n ≠ "endpoint" :=
      fun j hj => hpre j (List.mem_cons_of_mem x hj)
    obtain ⟨n, d, hx, hne⟩ := hpre x (List.mem_cons_self x t)
    subst hx
    simp [phase1Run, phase1Step, hne, ih ht]

/-! ## Claim theorems -/

/-- Claim C1, counterexample to the claim as stated: teardown through
handle_transport_disconnect for an id that is absent from the registry
still publishes a notification (not a silent no-op), and two consecutive
explicit disconnects publish zero notifications, not exactly one. -/
theorem C1_counterexample :
    (handle_transport_disconnect ⟨[], []⟩ "s1" "transport_error").2
        = [mkDisconnectNotification "s1" "transport_error"]
      ∧ (disconnect ⟨["s1"], []⟩ "s1").2 = []
      ∧ (disconnect (disconnect ⟨["s1"], []⟩ "s1").1 "s1").2 = [] :=
  ⟨rfl, rfl, rfl⟩

/-- Claim C1 (amended): explicit disconnect publishes no notification event
at all and a second consecutive disconnect is a no-op on the manager state;
handle_transport_disconnect publishes exactly one notification on every
invocation, even when the id is absent from the registry; the at-most-once
guarantee per transport termination is enforced by the SSE worker's
one-shot latch, whose second firing emits nothing. -/
theorem C1_disconnect_notification_discipline
    (st : ManagerState) (id reason : String) (w : SseWorkerState) (r1 r2 : String) :
    (disconnect st id).2 = []
      ∧ (disconnect (disconnect st id).1 id).1 = (disconnect st id).1
      ∧ (handle_transport_disconnect st id reason).2
          = [mkDisconnectNotification id reason]
      ∧ (((w.notify_disconnect r1).1).notify_disconnect r2).2 = [] := by
  refine ⟨rfl, ?_, rfl, ?_⟩
  · simp [disconnect, List.filter_filter]
  · by_cases hw : w.disconnect_notified
    · simp [SseWorkerState.notify_disconnect, hw]
    · simp [SseWorkerState.notify_disconnect, hw]

/-- Claim C2, counterexample to the claim as stated: the tag
"streaming_http" does not select the streamable-HTTP transport; it falls
through the dispatch to the unsupported-server-type error even though
transport initialization would succeed. -/
theorem C2_counterexample :
    dispatchTransport "streaming_http" = none
      ∧ connect ⟨[], []⟩ "s1" "http://h:9000/bar" "streaming_http" (Except.ok ())
          = (⟨[], []⟩, [],
             Except.error (AppError.Domain "Unsupported server type: streaming_http")) :=
  ⟨rfl, rfl⟩

/-- Claim C2 (amended): transport selection is a pure case-sensitive
dispatch on the tag string, but the streamable-HTTP tag is
"streamable_http", not "streaming_http"; the tag "sse" selects the SSE
transport, and any other tag (including "streaming_http") makes connect
return a request-time unsupported-server-type Domain error without
inserting a session. -/
theorem C2_transport_dispatch (st : ManagerState) (id url ty : String)
    (init : Except String Unit)
    (hty : dispatchTransport ty = none)
    (hid : st.connections.contains id = false) :
    dispatchTransport "streamable_http" = some TransportKind.streamableHttp
      ∧ dispatchTransport "sse" = some TransportKind.sse
      ∧ connect st id url ty init
          = (st, [], Except.error (AppError.Domain ("Unsupported server type: " ++ ty))) := by
  refine ⟨rfl, rfl, ?_⟩
  unfold connect
  rw [hid, hty]
  simp

/-- Claim C2 witness: the amended dispatch theorem applied at a concrete
unrecognized tag. -/
theorem C2_transport_dispatch_witness :
    connect ⟨[], []⟩ "s1" "u" "stdio" (Except.ok ())
      = (⟨[], []⟩, [],
         Except.error (AppError.Domain ("Unsupported server type: " ++ "stdio"))) :=
  (C2_transport_dispatch ⟨[], []⟩ "s1" "u" "stdio" (Except.ok ())
    (by decide) (by decide)).2.2

/-- Claim C3: evaluation of the code at the failing input. After a
handshake against http://h:9000/bar (origin http://h:9000), a Streaming
state endpoint rotation event carrying the relative path /foo/123 stores
the raw trimmed payload as the POST URL, and the next outbound message is
POSTed to "/foo/123" itself, not to the handshake-style resolution
"http://h:9000/foo/123". -/
theorem C3_endpoint_rotation_unresolved :
    (phase2Step (fun s => some s) (fun s => (some s : Option String))
        ⟨extractBaseUrl "http://h:9000/bar",
         resolveEndpoint (extractBaseUrl "http://h:9000/bar") "/mcp", false⟩
        (Phase2Input.sseEvent "endpoint" "/foo/123")).1.post_url = "/foo/123"
      ∧ (phase2Step (fun s => some s) (fun s => (some s : Option String))
          ⟨extractBaseUrl "http://h:9000/bar", "/foo/123", false⟩
          (Phase2Input.fromHandler true)).2.posts = ["/foo/123"]
      ∧ resolveEndpoint (extractBaseUrl "http://h:9000/bar") "/foo/123"
          = "http://h:9000/foo/123"
      ∧ ("/foo/123" : String) ≠ "http://h:9000/foo/123" := by
  refine ⟨by decide, by decide, by decide, by decide⟩

/-- Claim C4, counterexample to the claim as stated: disconnect_all tears
down the only session but its tool-cache entry survives. -/
theorem C4_counterexample :
    (disconnect_all ⟨["s1"], [("s1", [])]⟩).1.connections = []
      ∧ (disconnect_all ⟨["s1"], [("s1", [])]⟩).1.tools_cache = [("s1", [])] :=
  ⟨rfl, rfl⟩

/-- Claim C4 (amended): the tool-cache entry for an id is removed on
explicit disconnect and on transport- or heartbeat-initiated teardown of a
present session, but disconnect_all at shutdown leaves the tool cache
untouched. -/
theorem C4_cache_removed_on_teardown (st : ManagerState) (id reason : String)
    (hconn : st.connections.contains id = true) :
    ((disconnect st id).1.tools_cache.any (fun e => e.1 == id)) = false
      ∧ ((handle_transport_disconnect st id reason).1.tools_cache.any
          (fun e => e.1 == id)) = false
      ∧ (disconnect_all st).1.tools_cache = st.tools_cache := by
  refine ⟨cache_filter_no_entry st.tools_cache id, ?_, rfl⟩
  simp only [handle_transport_disconnect, hconn, if_pos]
  exact cache_filter_no_entry st.tools_cache id

/-- Claim C4 witness: the amended teardown theorem applied at a concrete
state holding one session and one cache entry. -/
theorem C4_cache_removed_on_teardown_witness :
    ((disconnect ⟨["s1"], [("s1", [])]⟩ "s1").1.tools_cache.any
        (fun e => e.1 == "s1")) = false
      ∧ ((handle_transport_disconnect ⟨["s1"], [("s1", [])]⟩ "s1" "r").1.tools_cache.any
          (fun e => e.1 == "s1")) = false
      ∧ (disconnect_all ⟨["s1"], [("s1", [])]⟩).1.tools_cache = [("s1", [])] :=
  C4_cache_removed_on_teardown ⟨["s1"], [("s1", [])]⟩ "s1" "r" (by decide)

/-- Claim C5: one heartbeat tick with a successful health check resets the
consecutive-failure counter to zero and keeps looping; with MAX_FAILURES
= 1, one tick with any failed health check (transport-closed or not)
drives teardown through handle_transport_disconnect, publishes exactly the
notification with reason "heartbeat_failed", and exits the loop. -/
theorem C5_heartbeat_tick (st : ManagerState) (id : String) (failures : Nat) :
    MAX_FAILURES = 1
      ∧ run_heartbeat_tick st id failures (Except.ok ())
          = (st, [], HeartbeatOutcome.ticking 0)
      ∧ ∀ e, run_heartbeat_tick st id failures (Except.error e)
          = ((handle_transport_disconnect st id "heartbeat_failed").1,
             [mkDisconnectNotification id "heartbeat_failed"],
             HeartbeatOutcome.exited) := by
  refine ⟨rfl, rfl, ?_⟩
  intro e
  have hle : MAX_FAILURES ≤ failures + 1 := Nat.succ_le_succ (Nat.zero_le failures)
  simp [run_heartbeat_tick, hle, handle_transport_disconnect]

/-- Claim C6: the tool-call timeout bound is 30 seconds; call_tool never
mutates the manager state (so neither the registry entry nor the tool
cache entry of the session is changed); every race outcome yields an Ok
result carrying the measured duration; and for a connected session the
timeout outcome yields a normal result with success false, a timeout error
message, and the duration, rather than an error. -/
theorem C6_call_tool_timeout (st : ManagerState) (id : String)
    (outcome : ToolCallOutcome) (dur : Int)
    (hconn : st.connections.contains id = true) :
    CALL_TOOL_TIMEOUT_SECS = 30
      ∧ (call_tool st id outcome dur).1 = st
      ∧ (∀ r, (call_tool st id outcome dur).2 = Except.ok r → r.duration_ms = dur)
      ∧ call_tool st id ToolCallOutcome.timedOut dur
          = (st, Except.ok
              { success := false
                raw_response := "\x7b\"error\": \"Request timed out\"\x7d"
                result := none
                error := some "Request timed out after 30 seconds"
                duration_ms := dur }) := by
  refine ⟨rfl, ?_, ?_, ?_⟩
  · unfold call_tool
    rw [hconn]
    cases outcome <;> rfl
  · intro r hr
    unfold call_tool at hr
    rw [hconn] at hr
    cases outcome <;> simp at hr <;> exact hr ▸ rfl
  · unfold call_tool
    rw [hconn]
    rfl

/-- Claim C6 witness: the timeout theorem applied to a concrete connected
session with a concrete measured duration. -/
theorem C6_call_tool_timeout_witness :
    call_tool ⟨["s1"], []⟩ "s1" ToolCallOutcome.timedOut 31000
      = (⟨["s1"], []⟩, Except.ok
          { success := false
            raw_response := "\x7b\"error\": \"Request timed out\"\x7d"
            result := none
            error := some "Request timed out after 30 seconds"
            duration_ms := 31000 }) :=
  (C6_call_tool_timeout ⟨["s1"], []⟩ "s1" ToolCallOutcome.timedOut 31000 (by decide)).2.2.2

/-- Claim C7: if the Phase 1 stream closes after any run of non-endpoint
events and before any endpoint event, the worker quits Fatal having emitted
exactly the one disconnect reason "sse_stream_closed_before_endpoint", and
the resulting latched worker state emits nothing on any further
notify_disconnect call. -/
theorem C7_close_before_endpoint (pre : List SseInput) (w : SseWorkerState)
    (hw : w.disconnect_notified = false)
    (hpre : ∀ i ∈ pre, ∃ n d, i = SseInput.sseEvent n d ∧ n ≠ "endpoint") :
    phase1Run w (pre ++ [SseInput.sseClosed])
        = ({ w with disconnect_notified := true },
           ["sse_stream_closed_before_endpoint"],
           Phase1Result.quit
             (WorkerQuitReason.Fatal "SSE stream closed before receiving endpoint"))
      ∧ ∀ r, (({ w with disconnect_notified := true } : SseWorkerState).notify_disconnect r).2
          = [] := by
  constructor
  · rw [phase1_skip_events w [SseInput.sseClosed] pre hpre]
    simp [phase1Run, phase1Step, SseWorkerState.notify_disconnect, hw]
  · intro r
    simp [SseWorkerState.notify_disconnect]

/-- Claim C7 witness: a mock stream that emits one unrelated event and then
closes, starting from a fresh worker. -/
theorem C7_close_before_endpoint_witness :
    phase1Run ⟨"http://h", none, false⟩
        [SseInput.sseEvent "ping" "x", SseInput.sseClosed]
      = (⟨"http://h", none, true⟩,
         ["sse_stream_closed_before_endpoint"],
         Phase1Result.quit
           (WorkerQuitReason.Fatal "SSE stream closed before receiving endpoint")) :=
  (C7_close_before_endpoint [SseInput.sseEvent "ping" "x"] ⟨"http://h", none, false⟩
    rfl (by intro i hi; simp at hi; subst hi; exact ⟨"ping", "x", rfl, by decide⟩)).1

/-- Claim C8: in the Streaming state, a message event whose body fails the
JSON parse stage or the protocol-message parse stage is dropped without
delivering anything, without notifying, and without leaving the loop, and
the next well-formed message event is still delivered to the handler. -/
theorem C8_malformed_then_valid {J M : Type}
    (parseJson : String → Option J) (parseRpc : J → Option M)
    (w : Phase2State) (d1 d2 : String) (j : J) (m : M)
    (hbad : parseJson d1 = none ∨ ∃ j1, parseJson d1 = some j1 ∧ parseRpc j1 = none)
    (hj : parseJson d2 = some j) (hm : parseRpc j = some m) :
    phase2Run parseJson parseRpc w
        [Phase2Input.sseEvent "message" d1, Phase2Input.sseEvent "message" d2]
      = (w, { notices := [], delivered := [m], posts := [],
              result := Phase2Result.streaming }) := by
  have hstep1 : phase2Step parseJson parseRpc w (Phase2Input.sseEvent "message" d1)
      = (w, { notices := [], delivered := [], posts := [],
              result := Phase2Result.streaming }) := by
    rcases hbad with h | ⟨j1, hj1, hr1⟩
    · simp [phase2Step, h]
    · simp [phase2Step, hj1, hr1]
  have hstep2 : phase2Step parseJson parseRpc w (Phase2Input.sseEvent "message" d2)
      = (w, { notices := [], delivered := [m], posts := [],
              result := Phase2Result.streaming }) := by
    simp [phase2Step, hj, hm]
  simp [phase2Run, hstep1, hstep2]

/-- Claim C8 witness: a concrete Streaming worker fed a malformed frame and
then a valid one; only the valid frame is delivered and the loop stays in
Streaming. -/
theorem C8_malformed_then_valid_witness :
    phase2Run (fun s => if s = "bad" then none else some s)
        (fun s => (some s : Option String))
        ⟨"http://h", "http://h/mcp", false⟩
        [Phase2Input.sseEvent "message" "bad", Phase2Input.sseEvent "message" "good"]
      = (⟨"http://h", "http://h/mcp", false⟩,
         { notices := [], delivered := ["good"], posts := [],
           result := Phase2Result.streaming }) :=
  C8_malformed_then_valid (fun s => if s = "bad" then none else some s)
    (fun s => (some s : Option String))
    ⟨"http://h", "http://h/mcp", false⟩ "bad" "good" "good" "good"
    (Or.inl (by decide)) (by decide) rfl

/-- Claim C9: during the handshake, an endpoint event carrying the
relative path /foo/123 after a GET to http://h:9000/bar records the POST
URL http://h:9000/foo/123 (payload concatenated onto the
scheme://host:port origin) and moves the worker to Streaming, while an
absolute https payload is used as-is by the resolution rule. -/
theorem C9_handshake_resolution :
    phase1Step ⟨extractBaseUrl "http://h:9000/bar", none, false⟩
        (SseInput.sseEvent "endpoint" "/foo/123")
      = (⟨"http://h:9000", some "http://h:9000/foo/123", false⟩, [],
         Phase1Result.proceedToStreaming)
      ∧ resolveEndpoint (extractBaseUrl "http://h:9000/bar") "https://other.example/x"
          = "https://other.example/x" :=
  ⟨by decide, by decide⟩

/-- Claim C10: whenever connect returns an error (id already present,
unsupported transport tag, or transport initialization failure) the
manager state is unchanged and no effect is performed, so no session is
inserted, no heartbeat task is spawned and the tool cache is untouched;
on the success path the session is inserted and the heartbeat started. -/
theorem C10_connect_error_leaves_state (st : ManagerState) (id url ty : String)
    (init : Except String Unit) :
    (isOkResult (connect st id url ty init).2.2 = false →
        (connect st id url ty init).1 = st ∧ (connect st id url ty init).2.1 = [])
      ∧ (isOkResult (connect st id url ty init).2.2 = true →
        (connect st id url ty init).1
            = { connections := id :: st.connections, tools_cache := st.tools_cache }
          ∧ (connect st id url ty init).2.1
            = [ConnectEffect.insertSession id, ConnectEffect.spawnHeartbeat id]) := by
  unfold connect
  by_cases hc : st.connections.contains id
  · rw [hc]
    simp [isOkResult]
  · rw [Bool.eq_false_iff.mpr hc]
    cases hd : dispatchTransport ty with
    | none => simp [isOkResult]
    | some k =>
      cases init with
      | error e => simp [isOkResult]
      | ok u => simp [isOkResult]

/-- Claim C10 witness: a connect that fails with Already connected leaves
the concrete one-session state unchanged and performs no effects. -/
theorem C10_connect_error_leaves_state_witness :
    (connect ⟨["s1"], []⟩ "s1" "u" "sse" (Except.ok ())).1 = ⟨["s1"], []⟩
      ∧ (connect ⟨["s1"], []⟩ "s1" "u" "sse" (Except.ok ())).2.1 = [] :=
  (C10_connect_error_leaves_state ⟨["s1"], []⟩ "s1" "u" "sse" (Except.ok ())).1 (by decide)

end McpStudio
